import Mathlib

/-!
Shallow embedding of the ShipUp delivery-order core
(`src/backend/src/services/OrderService.ts`,
`src/backend/src/middleware/logging.ts` (LocationService),
`src/backend/src/controllers/LocationController.ts`) together with the
statements settling the specification claims about it.

Persistence collaborators (`OrderRepository`, `OTPRepository`,
`LocationRepository`) exist in the repository only as interfaces and call
sites; their implementations are not under `src/`.  Where a claim depends on
such a collaborator its behaviour is modelled from the spec, and the
corresponding definition carries a doc comment starting `Modelled from the
spec:`.  Everything else is translated directly from the TypeScript source.

Numbers are embedded as `ℚ` (the source uses JS numbers; none of the claimed
properties depend on floating-point rounding), timestamps as `ℚ` milliseconds,
and thrown exceptions as `Except` values.  Database state is threaded
explicitly: each service operation returns its result together with the
updated stores.
-/

/-- Order lifecycle states, from `OrderStatus` in `src/types`
(as enumerated in `isValidStatusTransition`). -/
inductive OrderStatus where
  | pending
  | confirmed
  | pickedUp
  | inTransit
  | outForDelivery
  | delivered
  | cancelled
  | returned
deriving DecidableEq, Repr

/-- Payment states used by the order service. -/
inductive PaymentStatus where
  | pending
  | completed
  | refunded
deriving DecidableEq, Repr

/-- Delivery tiers, from `DeliveryType` in `src/types`. -/
inductive DeliveryType where
  | standard
  | express
  | sameDay
  | scheduled
deriving DecidableEq, Repr

/-- OTP purposes used by the order service (`OTPType.PICKUP` /
`OTPType.DELIVERY`). -/
inductive OTPType where
  | pickup
  | delivery
deriving DecidableEq, Repr

/-- The fields of an order that the claims touch, from `IOrder`.
Timestamps are `Option ℚ` (milliseconds); `none` means the field is unset. -/
structure Order where
  userId : String
  deliveryPartnerId : Option String := none
  status : OrderStatus
  paymentStatus : PaymentStatus
  actualPickupTime : Option ℚ := none
  actualDeliveryTime : Option ℚ := none
  notes : Option String := none
  cancellationReason : Option String := none
  cancelledBy : Option String := none
deriving DecidableEq, Repr

/-- The persistent order store, as an association list from order id to
order. -/
abbrev OrderDb : Type := List (String × Order)

/-- `orderRepository.findById`. -/
def dbFind (db : OrderDb) (orderId : String) : Option Order :=
  match db with
  | [] => none
  | (k, o) :: rest => if k = orderId then some o else dbFind rest orderId

/-- Replace the order stored under `orderId` (used by the modelled repository
write operations). -/
def dbSet (db : OrderDb) (orderId : String) (o : Order) : OrderDb :=
  match db with
  | [] => []
  | (k, old) :: rest =>
      if k = orderId then (k, o) :: rest else (k, old) :: dbSet rest orderId o

/-- The failure reasons the OTP ledger can report (the `message` field of the
repository's verification result, per spec §4.2). -/
inductive OTPVerifyFailure where
  | notFound
  | expired
  | mismatched
  | exhausted
deriving DecidableEq, Repr

/-- Typed rendering of the errors the order service throws via
`createError`; `invalidTransition` keeps both statuses, mirroring the message
`Invalid status transition from CURRENT to NEW`. -/
inductive OrderError where
  | orderNotFound
  | invalidTransition (curr target : OrderStatus)
  | alreadyAssigned
  | cannotAssignInCurrentStatus
  | partnerNotFound
  | partnerIneligible
  | assignFailed
  | updateFailed
  | cancelFailed
  | unauthorizedPickup
  | unauthorizedDelivery
  | notReadyForPickup
  | notOutForDelivery
  | otpFailed (reason : OTPVerifyFailure)
deriving DecidableEq, Repr

instance {e a : Type} [DecidableEq e] [DecidableEq a] : DecidableEq (Except e a)
  | .ok x, .ok y =>
      if h : x = y then isTrue (by rw [h]) else isFalse (by simp [h])
  | .ok _, .error _ => isFalse (by simp)
  | .error _, .ok _ => isFalse (by simp)
  | .error x, .error y =>
      if h : x = y then isTrue (by rw [h]) else isFalse (by simp [h])

/-- `isValidStatusTransition` from `OrderService.ts` lines 541-554: the
literal transition table. -/
def isValidStatusTransition (currentStatus newStatus : OrderStatus) : Bool :=
  newStatus ∈ match currentStatus with
  | .pending => [OrderStatus.confirmed, OrderStatus.cancelled]
  | .confirmed => [OrderStatus.pickedUp, OrderStatus.cancelled]
  | .pickedUp => [OrderStatus.inTransit, OrderStatus.returned]
  | .inTransit => [OrderStatus.outForDelivery, OrderStatus.returned]
  | .outForDelivery => [OrderStatus.delivered, OrderStatus.returned]
  | .delivered => []
  | .cancelled => []
  | .returned => []

/-- The terminal states (spec §4.1: DELIVERED, CANCELLED, RETURNED have no
outgoing edges). -/
def OrderStatus.isTerminal : OrderStatus → Bool
  | .delivered => true
  | .cancelled => true
  | .returned => true
  | _ => false

/-- The transition table exactly as claim C1 states it (spec §4.1), written
independently of the source so that `isValidStatusTransition` can be checked
against it. -/
def claimedTransitionTable : List (OrderStatus × OrderStatus) :=
  [ (.pending, .confirmed), (.pending, .cancelled),
    (.confirmed, .pickedUp), (.confirmed, .cancelled),
    (.pickedUp, .inTransit), (.pickedUp, .returned),
    (.inTransit, .outForDelivery), (.inTransit, .returned),
    (.outForDelivery, .delivered), (.outForDelivery, .returned) ]

/-- The extra fields `updateOrderStatus` collects in its `updateData` object
(`OrderService.ts` lines 246-256): on PICKED_UP the actual-pickup timestamp,
on DELIVERED the actual-delivery timestamp and payment COMPLETED.  In the
source this object is built and then never passed to the repository call. -/
structure StatusUpdateData where
  status : OrderStatus
  actualPickupTime : Option ℚ := none
  actualDeliveryTime : Option ℚ := none
  paymentStatus : Option PaymentStatus := none
deriving DecidableEq, Repr

/-- The `switch (newStatus)` of `OrderService.updateOrderStatus` building
`updateData`. -/
def updateStatusUpdateData (newStatus : OrderStatus) (now : ℚ) : StatusUpdateData :=
  match newStatus with
  | .pickedUp => { status := newStatus, actualPickupTime := some now }
  | .delivered =>
      { status := newStatus, actualDeliveryTime := some now,
        paymentStatus := some PaymentStatus.completed }
  | _ => { status := newStatus }

/-- Modelled from the spec: `OrderRepository.updateStatus` is not under
`src/` (only the interface `IOrderRepository.ts` and its callers are).  The
spec's order-store collaborator (§6) exposes
`conditionalUpdateStatus(id, expectedStatus, newStatus, extra)`, which writes
the new status plus whatever extra data the caller supplies; the service call
site passes only the status and the notes, so the model writes exactly
those. -/
def OrderRepository.updateStatus (db : OrderDb) (orderId : String)
    (status : OrderStatus) (notes : Option String) : Option (Order × OrderDb) :=
  match dbFind db orderId with
  | none => none
  | some o =>
      let o' := { o with status := status, notes := notes }
      some (o', dbSet db orderId o')

/-- `OrderService.updateOrderStatus` (lines 228-274): look the order up,
validate the transition, build `updateData` (which the source then discards),
and delegate the write to `orderRepository.updateStatus(orderId, newStatus,
notes)`.  Returns the thrown error or the updated order, together with the
resulting store. -/
def updateOrderStatus (db : OrderDb) (orderId : String) (newStatus : OrderStatus)
    (notes : Option String) (now : ℚ) : Except OrderError Order × OrderDb :=
  match dbFind db orderId with
  | none => (.error .orderNotFound, db)
  | some order =>
      if isValidStatusTransition order.status newStatus then
        let _updateData := updateStatusUpdateData newStatus now
        match OrderRepository.updateStatus db orderId newStatus notes with
        | none => (.error .updateFailed, db)
        | some (updatedOrder, db') => (.ok updatedOrder, db')
      else
        (.error (.invalidTransition order.status newStatus), db)

/-- The part of a user record the order service reads (`IUser`): existence
and the `isActive` flag checked by `assignDeliveryPartner`. -/
structure User where
  isActive : Bool
deriving DecidableEq, Repr

/-- The user store (`userRepository`), as an association list. -/
abbrev UserDb : Type := List (String × User)

/-- `userRepository.findById`. -/
def userFind (users : UserDb) (userId : String) : Option User :=
  match users with
  | [] => none
  | (k, u) :: rest => if k = userId then some u else userFind rest userId

/-- Modelled from the spec: `OrderRepository.assignDeliveryPartner` is not
under `src/` (only the interface and its caller are).  Per spec §4.1
`assignPartner` "transitions to CONFIRMED and records the partner
reference". -/
def OrderRepository.assignDeliveryPartner (db : OrderDb) (orderId deliveryPartnerId : String) :
    Option (Order × OrderDb) :=
  match dbFind db orderId with
  | none => none
  | some o =>
      let o' := { o with deliveryPartnerId := some deliveryPartnerId,
                         status := OrderStatus.confirmed }
      some (o', dbSet db orderId o')

/-- `OrderService.assignDeliveryPartner` (lines 190-226): order must exist,
be unassigned and PENDING; the partner must exist and be active; then the
write is delegated to the repository. -/
def assignDeliveryPartner (db : OrderDb) (users : UserDb)
    (orderId deliveryPartnerId : String) : Except OrderError Order × OrderDb :=
  match dbFind db orderId with
  | none => (.error .orderNotFound, db)
  | some order =>
      if order.deliveryPartnerId.isSome then
        (.error .alreadyAssigned, db)
      else if order.status ≠ OrderStatus.pending then
        (.error .cannotAssignInCurrentStatus, db)
      else
        match userFind users deliveryPartnerId with
        | none => (.error .partnerNotFound, db)
        | some deliveryPartner =>
            if ¬deliveryPartner.isActive then
              (.error .partnerIneligible, db)
            else
              match OrderRepository.assignDeliveryPartner db orderId deliveryPartnerId with
              | none => (.error .assignFailed, db)
              | some (updatedOrder, db') => (.ok updatedOrder, db')

/-- Modelled from the spec: `OrderRepository.cancelOrder` is not under
`src/` (only the interface declaration `cancelOrder(orderId, reason,
cancelledBy): Promise<IOrder | null>` and its caller are).  Per spec §4.1
cancellation is "permitted at any non-terminal state": the model cancels a
non-terminal order, recording reason and actor, and yields `none` (the
service's `Failed to cancel order` path) for a terminal one. -/
def OrderRepository.cancelOrder (db : OrderDb) (orderId reason cancelledBy : String) :
    Option (Order × OrderDb) :=
  match dbFind db orderId with
  | none => none
  | some o =>
      if o.status.isTerminal then none
      else
        let o' := { o with status := OrderStatus.cancelled,
                           cancellationReason := some reason,
                           cancelledBy := some cancelledBy }
        some (o', dbSet db orderId o')

/-- `orderRepository.update(orderId, { paymentStatus: REFUNDED })` as invoked
by `cancelOrder`; the source does not inspect its result. -/
def OrderRepository.updatePaymentStatus (db : OrderDb) (orderId : String)
    (p : PaymentStatus) : OrderDb :=
  match dbFind db orderId with
  | none => db
  | some o => dbSet db orderId { o with paymentStatus := p }

/-- `OrderService.cancelOrder` (lines 276-304): look the order up, delegate
cancellation to the repository, then — if the payment had been COMPLETED on
the order as read — flip the payment status to REFUNDED. -/
def cancelOrder (db : OrderDb) (orderId reason cancelledBy : String) :
    Except OrderError Order × OrderDb :=
  match dbFind db orderId with
  | none => (.error .orderNotFound, db)
  | some order =>
      match OrderRepository.cancelOrder db orderId reason cancelledBy with
      | none => (.error .cancelFailed, db)
      | some (cancelledOrder, db') =>
          if order.paymentStatus = PaymentStatus.completed then
            (.ok cancelledOrder,
             OrderRepository.updatePaymentStatus db' orderId PaymentStatus.refunded)
          else
            (.ok cancelledOrder, db')

/-- An OTP ledger record (`OTP Record` of spec §3; created by
`otpRepository.createOTP(userId, type, code, orderId)`). -/
structure OTPRecord where
  userId : String
  otpType : OTPType
  code : String
  orderId : Option String := none
  expiresAt : ℚ
  consumed : Bool := false
  attempts : ℕ := 0
deriving DecidableEq, Repr

/-- Modelled from the spec: the attempt ceiling of spec §4.2 is "a
configurable attempt ceiling"; the model takes it as the constant 3. -/
def maxOtpAttempts : ℕ := 3

/-- Mark one record of the ledger consumed (first occurrence). -/
def markConsumed (records : List OTPRecord) (r : OTPRecord) : List OTPRecord :=
  match records with
  | [] => []
  | x :: rest => if x = r then { x with consumed := true } :: rest
                 else x :: markConsumed rest r

/-- Increment the attempt counter of one record of the ledger. -/
def bumpAttempts (records : List OTPRecord) (r : OTPRecord) : List OTPRecord :=
  match records with
  | [] => []
  | x :: rest => if x = r then { x with attempts := x.attempts + 1 } :: rest
                 else x :: bumpAttempts rest r

/-- Does `r` verify `code` for `(userId, otpType)`?  Note the key carries no
order reference: the service call site
(`otpRepository.verifyOTP(order.userId.toString(), OTPType.PICKUP, otpCode)`)
passes only subject, purpose and code. -/
def otpMatches (userId : String) (t : OTPType) (code : String) (r : OTPRecord) : Bool :=
  r.userId = userId ∧ r.otpType = t ∧ r.consumed = false ∧ r.code = code

/-- Is `r` an active (unconsumed) record for `(userId, otpType)`? -/
def otpActive (userId : String) (t : OTPType) (r : OTPRecord) : Bool :=
  r.userId = userId ∧ r.otpType = t ∧ r.consumed = false

/-- Modelled from the spec: `OTPRepository.verifyOTP` is not under `src/`
(only its call sites are).  Spec §4.2 `verify` fails with `NotFound` when no
active record exists, `Expired` past the expiry (marking the record
consumed), `Mismatch` on a wrong code (incrementing the attempt counter),
`Exhausted` past the attempt ceiling, and consumes the record on an exact
match.  The call site supplies no order reference, so the lookup key is
`(subject, purpose)` alone: any active record of the subject for that purpose
whose code matches is accepted. -/
def OTPRepository.verifyOTP (records : List OTPRecord) (userId : String)
    (t : OTPType) (code : String) (now : ℚ) :
    Except OTPVerifyFailure Unit × List OTPRecord :=
  match records.find? (otpMatches userId t code) with
  | some r =>
      if r.expiresAt < now then (.error .expired, markConsumed records r)
      else if maxOtpAttempts ≤ r.attempts then (.error .exhausted, records)
      else (.ok (), markConsumed records r)
  | none =>
      match records.find? (otpActive userId t) with
      | none => (.error .notFound, records)
      | some r => (.error .mismatched, bumpAttempts records r)

/-- `OrderService.verifyPickupOTP` (lines 306-345): the caller must be the
assigned partner, the order must be CONFIRMED, the code is delegated to
`otpRepository.verifyOTP(customerId, PICKUP, code)`, and on ledger success
the order is advanced via `updateOrderStatus(orderId, PICKED_UP, ...)`. -/
def verifyPickupOTP (db : OrderDb) (otps : List OTPRecord)
    (orderId otpCode deliveryPartnerId : String) (now : ℚ) :
    Except OrderError Order × OrderDb × List OTPRecord :=
  match dbFind db orderId with
  | none => (.error .orderNotFound, db, otps)
  | some order =>
      if order.deliveryPartnerId ≠ some deliveryPartnerId then
        (.error .unauthorizedPickup, db, otps)
      else if order.status ≠ OrderStatus.confirmed then
        (.error .notReadyForPickup, db, otps)
      else
        match OTPRepository.verifyOTP otps order.userId OTPType.pickup otpCode now with
        | (.error reason, otps') => (.error (.otpFailed reason), db, otps')
        | (.ok _, otps') =>
            match updateOrderStatus db orderId OrderStatus.pickedUp
                (some "Package picked up with OTP verification") now with
            | (.error e, db') => (.error e, db', otps')
            | (.ok updatedOrder, db') => (.ok updatedOrder, db', otps')

/-- `OrderService.verifyDeliveryOTP` (lines 347-386): same shape with the
OUT_FOR_DELIVERY pre-state, purpose DELIVERY and target DELIVERED. -/
def verifyDeliveryOTP (db : OrderDb) (otps : List OTPRecord)
    (orderId otpCode deliveryPartnerId : String) (now : ℚ) :
    Except OrderError Order × OrderDb × List OTPRecord :=
  match dbFind db orderId with
  | none => (.error .orderNotFound, db, otps)
  | some order =>
      if order.deliveryPartnerId ≠ some deliveryPartnerId then
        (.error .unauthorizedDelivery, db, otps)
      else if order.status ≠ OrderStatus.outForDelivery then
        (.error .notOutForDelivery, db, otps)
      else
        match OTPRepository.verifyOTP otps order.userId OTPType.delivery otpCode now with
        | (.error reason, otps') => (.error (.otpFailed reason), db, otps')
        | (.ok _, otps') =>
            match updateOrderStatus db orderId OrderStatus.delivered
                (some "Package delivered with OTP verification") now with
            | (.error e, db') => (.error e, db', otps')
            | (.ok updatedOrder, db') => (.ok updatedOrder, db', otps')

/-- A latitude/longitude pair (`LocationCoordinates`). -/
structure Coordinates where
  latitude : ℚ
  longitude : ℚ
deriving DecidableEq, Repr

/-- The part of a stored location sample `validateLocationUpdate` reads:
coordinates and the `createdAt` timestamp (milliseconds). -/
structure LocationSample where
  coordinates : Coordinates
  createdAt : ℚ
deriving DecidableEq, Repr

/-- The verdict object `{ isValid, reason? }` returned by
`LocationService.validateLocationUpdate`. -/
structure LocationVerdict where
  isValid : Bool
  reason : Option String := none
deriving DecidableEq, Repr

/-- The body of `LocationService.validateLocationUpdate` (logging.ts lines
428-472) after the last stored sample has been read.  The great-circle
distance computation (`calculateDistance`, a floating-point haversine) is
abstracted as the parameter `dist`: the claimed properties hold for every
distance function, in particular for the haversine the source uses. -/
def validateLocationUpdateCore (dist : Coordinates → Coordinates → ℚ)
    (lastLocation : Option LocationSample) (now : ℚ) (coordinates : Coordinates) :
    LocationVerdict :=
  match lastLocation with
  | none => { isValid := true }
  | some lastLoc =>
      let timeDiff := now - lastLoc.createdAt
      if timeDiff < 5000 then
        { isValid := false, reason := some "Location updates too frequent" }
      else
        let distance := dist lastLoc.coordinates coordinates
        let maxSpeedKmh : ℚ := 120
        let maxDistanceKm := maxSpeedKmh * timeDiff / (1000 * 60 * 60)
        if maxDistanceKm < distance then
          { isValid := false,
            reason := some "Location change exceeds maximum possible speed" }
        else
          { isValid := true }

/-- `LocationService.validateLocationUpdate` at its public interface: the
whole body sits in a `try`/`catch` whose only throwing step is the
`getLatestLocation` read, embedded as an `Except` input.  The `catch` clause
turns any error into the verdict `{ isValid: false, reason: "Validation
error" }`. -/
def validateLocationUpdate (dist : Coordinates → Coordinates → ℚ)
    (readLast : Except String (Option LocationSample)) (now : ℚ)
    (coordinates : Coordinates) : LocationVerdict :=
  match readLast with
  | .error _ => { isValid := false, reason := some "Validation error" }
  | .ok lastLocation => validateLocationUpdateCore dist lastLocation now coordinates

/-- A per-subject store of accepted location samples. -/
abbrev LocationStore : Type := List LocationSample

/-- `LocationController.updateLocation` (LocationController.ts lines 15-32):
validate first; on an invalid verdict answer with `sendError` and leave the
store untouched; only on a valid verdict call `updateUserLocation`, which
persists the sample (the repository write modelled as appending the accepted
sample). -/
def controllerUpdateLocation (dist : Coordinates → Coordinates → ℚ)
    (store : LocationStore) (readLast : Except String (Option LocationSample))
    (now : ℚ) (coordinates : Coordinates) : LocationVerdict × LocationStore :=
  let validation := validateLocationUpdate dist readLast now coordinates
  if validation.isValid then
    (validation, store ++ [{ coordinates := coordinates, createdAt := now }])
  else
    (validation, store)

/-- Modelled from the spec: `LocationRepository.cleanupOldLocations` is not
under `src/` (only the interface `ILocationRepository` and the service caller
are).  Per spec §3 the sweep "removes records older than a caller-supplied
age floor"; ages are in days, and the number of removed records is
returned. -/
def LocationRepository.cleanupOldLocations (ages : List ℚ) (daysOld : ℚ) :
    ℕ × List ℚ :=
  ((ages.filter (fun age => daysOld < age)).length,
   ages.filter (fun age => ¬daysOld < age))

/-- `LocationService.cleanupOldLocations` (logging.ts lines 412-426): reject
any `daysOld < 7` before touching the store, otherwise delegate to the
repository sweep and return the deleted count.  The store is threaded as the
list of record ages in days. -/
def cleanupOldLocations (ages : List ℚ) (daysOld : ℚ) :
    Except String ℕ × List ℚ :=
  if daysOld < 7 then
    (.error "Cannot delete locations newer than 7 days", ages)
  else
    let (deletedCount, kept) := LocationRepository.cleanupOldLocations ages daysOld
    (.ok deletedCount, kept)

/-- A nearby-partner row as returned by the spatial radius query
(`locationRepository.findNearbyDeliveryPartners`), together with the rating
and completed-delivery data the spec's spatial index exposes for the
candidate (spec §6). -/
structure PartnerCandidate where
  userId : String
  coordinates : Coordinates
  rating : ℚ
  completedDeliveries : ℚ
deriving DecidableEq, Repr

/-- A scored candidate as built by `findOptimalDeliveryPartner`. -/
structure ScoredPartner where
  userId : String
  coordinates : Coordinates
  pickupDistance : ℚ
  deliveryDistance : ℚ
  rating : ℚ
  totalDeliveries : ℚ
  score : ℚ
deriving DecidableEq, Repr

/-- The per-candidate scoring step of `findOptimalDeliveryPartner`
(logging.ts lines 565-602).  The source computes both distances, fetches the
user record, then sets `const rating = 0;` and `const totalDeliveries = 0;`
— the candidate's own rating and delivery count are never read — and scores
`(pickupDistance+deliveryDistance)*0.7 + (5-rating)*0.2 +
max(0, 100-totalDeliveries)*0.001`. -/
def scorePartner (dist : Coordinates → Coordinates → ℚ)
    (pickup delivery : Coordinates) (partner : PartnerCandidate) : ScoredPartner :=
  let pickupDistance := dist pickup partner.coordinates
  let deliveryDistance := dist partner.coordinates delivery
  let rating : ℚ := 0
  let totalDeliveries : ℚ := 0
  let distanceScore := (pickupDistance + deliveryDistance) * (7 / 10)
  let ratingScore := (5 - rating) * (2 / 10)
  let experienceScore := max 0 (100 - totalDeliveries) * (1 / 1000)
  { userId := partner.userId, coordinates := partner.coordinates,
    pickupDistance := pickupDistance, deliveryDistance := deliveryDistance,
    rating := rating, totalDeliveries := totalDeliveries,
    score := distanceScore + ratingScore + experienceScore }

/-- Stable insertion into a list sorted ascending by score: an element is
placed after every earlier element of equal score, matching the stable
`Array.prototype.sort` with comparator `(a, b) => a.score - b.score`. -/
def insertByScore (x : ScoredPartner) : List ScoredPartner → List ScoredPartner
  | [] => [x]
  | y :: ys => if x.score ≤ y.score then x :: y :: ys else y :: insertByScore x ys

/-- Stable ascending sort by score. -/
def sortByScore : List ScoredPartner → List ScoredPartner
  | [] => []
  | x :: xs => insertByScore x (sortByScore xs)

/-- `LocationService.findOptimalDeliveryPartner` (logging.ts lines 540-613):
given the radius-query result, return `null` when it is empty, otherwise
score every candidate, sort ascending by score and return the first
element. -/
def findOptimalDeliveryPartner (dist : Coordinates → Coordinates → ℚ)
    (nearbyPartners : List PartnerCandidate) (pickup delivery : Coordinates) :
    Option ScoredPartner :=
  match nearbyPartners with
  | [] => none
  | _ =>
      let scoredPartners := nearbyPartners.map (scorePartner dist pickup delivery)
      (sortByScore scoredPartners).head?

/-- The score claim C4 attributes to each candidate, computed — as the spec
words it — from "that candidate's own rating and completed-delivery count";
written independently of the source for comparison. -/
def claimedScore (pickupDistance dropoffDistance rating completedDeliveries : ℚ) : ℚ :=
  (7 / 10) * (pickupDistance + dropoffDistance) + (2 / 10) * (5 - rating)
    + (1 / 1000) * max 0 (100 - completedDeliveries)

/-- An order item as read by `calculatePricing`: optional weight
(`item.weight || 0`) and a value. -/
structure OrderItem where
  weight : Option ℚ := none
  value : ℚ
deriving DecidableEq, Repr

/-- The pricing breakdown (`Pricing`) returned by `calculatePricing`. -/
structure Pricing where
  basePrice : ℚ
  distanceCharge : ℚ
  weightCharge : ℚ
  deliveryCharge : ℚ
  taxAmount : ℚ
  discount : ℚ
  totalAmount : ℚ
deriving DecidableEq, Repr

/-- `OrderService.calculatePricing` (lines 466-518).  The distance
computation (`calculateDistance` from `utils/helpers`, a floating-point
haversine not under `src/`) is abstracted as the parameter `dist`; everything
downstream of it is translated literally. -/
def calculatePricing (dist : Coordinates → Coordinates → ℚ)
    (items : List OrderItem) (pickupCoordinates deliveryCoordinates : Coordinates)
    (deliveryType : DeliveryType) : Pricing :=
  let distance := dist pickupCoordinates deliveryCoordinates
  let totalWeight := items.foldl (fun sum item => sum + item.weight.getD 0) 0
  let basePrice : ℚ := 50
  let distanceCharge := distance * 10
  let weightCharge := totalWeight * 5
  let deliveryCharge : ℚ :=
    match deliveryType with
    | .express => 100
    | .sameDay => 200
    | .scheduled => 50
    | .standard => 25
  let subtotal := basePrice + distanceCharge + weightCharge + deliveryCharge
  let taxRate : ℚ := 18 / 100
  let taxAmount := subtotal * taxRate
  let totalAmount := subtotal + taxAmount
  { basePrice := basePrice, distanceCharge := distanceCharge,
    weightCharge := weightCharge, deliveryCharge := deliveryCharge,
    taxAmount := taxAmount, discount := 0, totalAmount := totalAmount }

/-! ## Helper lemmas -/

/-- The source's transition check agrees exactly with the table claimed in
spec §4.1. -/
theorem isValidStatusTransition_iff_table (a b : OrderStatus) :
    isValidStatusTransition a b = true ↔ (a, b) ∈ claimedTransitionTable := by
  cases a <;> cases b <;> decide

theorem dbFind_dbSet_self (db : OrderDb) (orderId : String) (o o0 : Order)
    (h : dbFind db orderId = some o0) :
    dbFind (dbSet db orderId o) orderId = some o := by
  induction db with
  | nil => simp [dbFind] at h
  | cons kv rest ih =>
      obtain ⟨k, old⟩ := kv
      by_cases hk : k = orderId
      · simp [dbFind, dbSet, hk]
      · simp only [dbFind, dbSet, if_neg hk] at h ⊢
        exact ih h

theorem OrderRepository.updateStatus_of_found (db : OrderDb) (orderId : String)
    (o : Order) (status : OrderStatus) (notes : Option String)
    (h : dbFind db orderId = some o) :
    OrderRepository.updateStatus db orderId status notes
      = some ({ o with status := status, notes := notes },
              dbSet db orderId { o with status := status, notes := notes }) := by
  simp [OrderRepository.updateStatus, h]

/-! ## C1 : status transitions follow the table of §4.1 -/

/-- C1.  For every stored order and requested target status,
`updateOrderStatus` succeeds exactly when (current, target) is an edge of the
§4.1 table; for any other pair it fails with the invalid-transition error
naming both statuses, and — the check preceding every write — the store it
returns is the untouched input store. -/
theorem updateOrderStatus_follows_transition_table
    (db : OrderDb) (orderId : String) (order : Order) (newStatus : OrderStatus)
    (notes : Option String) (now : ℚ)
    (h : dbFind db orderId = some order) :
    ((order.status, newStatus) ∈ claimedTransitionTable →
        ∃ o' db', updateOrderStatus db orderId newStatus notes now = (.ok o', db'))
    ∧ ((order.status, newStatus) ∉ claimedTransitionTable →
        updateOrderStatus db orderId newStatus notes now
          = (.error (.invalidTransition order.status newStatus), db)) := by
  constructor
  · intro hmem
    have hvalid : isValidStatusTransition order.status newStatus = true :=
      (isValidStatusTransition_iff_table _ _).mpr hmem
    simp [updateOrderStatus, h, hvalid,
          OrderRepository.updateStatus_of_found db orderId order newStatus notes h]
  · intro hmem
    have hinvalid : isValidStatusTransition order.status newStatus = false := by
      by_contra hne
      exact hmem ((isValidStatusTransition_iff_table _ _).mp
        (eq_true_of_ne_false hne))
    simp [updateOrderStatus, h, hinvalid]

/-- Witness for C1 at a concrete store: a CONFIRMED order refuses the edge
to DELIVERED and the store is returned unchanged. -/
theorem updateOrderStatus_follows_transition_table_witness :
    updateOrderStatus
        [("A", { userId := "u1", status := OrderStatus.confirmed,
                 paymentStatus := PaymentStatus.pending })] "A"
        OrderStatus.delivered none 777
      = (.error (.invalidTransition OrderStatus.confirmed OrderStatus.delivered),
         [("A", { userId := "u1", status := OrderStatus.confirmed,
                  paymentStatus := PaymentStatus.pending })]) :=
  (updateOrderStatus_follows_transition_table
      [("A", { userId := "u1", status := OrderStatus.confirmed,
               paymentStatus := PaymentStatus.pending })] "A"
      { userId := "u1", status := OrderStatus.confirmed,
        paymentStatus := PaymentStatus.pending }
      OrderStatus.delivered none 777 (by decide)).2 (by decide)

/-! ## C3 : milestone data is computed but never persisted -/

/-- Concrete CONFIRMED order for the C3 evaluation. -/
def orderC3a : Order :=
  { userId := "u3", deliveryPartnerId := some "p3",
    status := OrderStatus.confirmed, paymentStatus := PaymentStatus.pending }

/-- Concrete OUT_FOR_DELIVERY order for the C3 evaluation. -/
def orderC3b : Order :=
  { userId := "u3", deliveryPartnerId := some "p3",
    status := OrderStatus.outForDelivery, paymentStatus := PaymentStatus.pending }

/-- The order `orderC3a` after the accepted PICKED_UP transition, as the
modelled repository persists it (status and notes only). -/
def orderC3aAfter : Order :=
  { userId := "u3", deliveryPartnerId := some "p3",
    status := OrderStatus.pickedUp, paymentStatus := PaymentStatus.pending }

/-- The order `orderC3b` after the accepted DELIVERED transition, as the
modelled repository persists it (status and notes only). -/
def orderC3bAfter : Order :=
  { userId := "u3", deliveryPartnerId := some "p3",
    status := OrderStatus.delivered, paymentStatus := PaymentStatus.pending }

/-- C3, evaluated at the failing inputs.  The service computes `updateData`
carrying the actual-pickup timestamp (resp. the actual-delivery timestamp
and payment COMPLETED) — first three conjuncts — but the repository call
receives only `(orderId, newStatus, notes)`, so the accepted transition to
PICKED_UP leaves the persisted actual-pickup timestamp unset, and the
accepted transition to DELIVERED leaves the actual-delivery timestamp unset
and the payment status untouched. -/
theorem updateOrderStatus_drops_milestone_data :
    (updateStatusUpdateData OrderStatus.pickedUp 777).actualPickupTime = some 777
  ∧ (updateStatusUpdateData OrderStatus.delivered 777).actualDeliveryTime = some 777
  ∧ (updateStatusUpdateData OrderStatus.delivered 777).paymentStatus
      = some PaymentStatus.completed
  ∧ updateOrderStatus [("A", orderC3a)] "A" OrderStatus.pickedUp none 777
      = (.ok orderC3aAfter, [("A", orderC3aAfter)])
  ∧ orderC3aAfter.actualPickupTime = none
  ∧ updateOrderStatus [("B", orderC3b)] "B" OrderStatus.delivered none 777
      = (.ok orderC3bAfter, [("B", orderC3bAfter)])
  ∧ orderC3bAfter.actualDeliveryTime = none
  ∧ orderC3bAfter.paymentStatus = PaymentStatus.pending := by
  decide

/-! ## C6 : cancellation is guarded by terminality and compensates payment -/

/-- C6.  For every stored order, `cancelOrder` fails (leaving the store
untouched) exactly on the terminal states, and succeeds from every
non-terminal state; after a successful cancellation the persisted order is
CANCELLED, with the payment flipped to REFUNDED whenever it had been
COMPLETED. -/
theorem cancelOrder_guards_and_refund
    (db : OrderDb) (orderId reason cancelledBy : String) (order : Order)
    (h : dbFind db orderId = some order) :
    (order.status.isTerminal = true →
        cancelOrder db orderId reason cancelledBy = (.error .cancelFailed, db))
    ∧ (order.status.isTerminal = false →
        (cancelOrder db orderId reason cancelledBy).1
            = .ok { order with status := OrderStatus.cancelled,
                               cancellationReason := some reason,
                               cancelledBy := some cancelledBy }
          ∧ dbFind (cancelOrder db orderId reason cancelledBy).2 orderId
              = some { order with
                  status := OrderStatus.cancelled,
                  cancellationReason := some reason,
                  cancelledBy := some cancelledBy,
                  paymentStatus :=
                    if order.paymentStatus = PaymentStatus.completed then
                      PaymentStatus.refunded
                    else order.paymentStatus }) := by
  constructor
  · intro hterm
    simp [cancelOrder, OrderRepository.cancelOrder, h, hterm]
  · intro hterm
    by_cases hpay : order.paymentStatus = PaymentStatus.completed
    · have hfound := dbFind_dbSet_self db orderId
        { order with status := OrderStatus.cancelled,
                     paymentStatus := PaymentStatus.completed,
                     cancellationReason := some reason,
                     cancelledBy := some cancelledBy } order h
      constructor
      · simp [cancelOrder, OrderRepository.cancelOrder, h, hterm, hpay]
      · simp [cancelOrder, OrderRepository.cancelOrder, h, hterm, hpay,
              OrderRepository.updatePaymentStatus, hfound]
        exact dbFind_dbSet_self _ orderId _ _ hfound
    · constructor
      · simp [cancelOrder, OrderRepository.cancelOrder, h, hterm, hpay]
      · simp [cancelOrder, OrderRepository.cancelOrder, h, hterm, hpay]
        exact dbFind_dbSet_self db orderId _ order h

/-- Witness for C6: end-to-end scenario D — cancelling a CONFIRMED order
whose payment is COMPLETED leaves a persisted CANCELLED order with payment
REFUNDED. -/
theorem cancelOrder_guards_and_refund_witness :
    (cancelOrder
        [("A", { userId := "u6", status := OrderStatus.confirmed,
                 paymentStatus := PaymentStatus.completed })] "A" "why" "u6").1
        = .ok { userId := "u6", status := OrderStatus.cancelled,
                paymentStatus := PaymentStatus.completed,
                cancellationReason := some "why", cancelledBy := some "u6" }
      ∧ dbFind (cancelOrder
          [("A", { userId := "u6", status := OrderStatus.confirmed,
                   paymentStatus := PaymentStatus.completed })] "A" "why" "u6").2 "A"
          = some { userId := "u6", status := OrderStatus.cancelled,
                   paymentStatus := PaymentStatus.refunded,
                   cancellationReason := some "why", cancelledBy := some "u6" } := by
  have h := (cancelOrder_guards_and_refund
      [("A", { userId := "u6", status := OrderStatus.confirmed,
               paymentStatus := PaymentStatus.completed })] "A" "why" "u6"
      { userId := "u6", status := OrderStatus.confirmed,
        paymentStatus := PaymentStatus.completed } (by decide)).2 (by decide)
  simpa using h

/-! ## C7 : partner assignment guards -/

/-- C7.  `assignDeliveryPartner` fails — leaving the store untouched — when
the order is missing, already assigned, not PENDING, or when the partner is
missing or inactive; otherwise it persists the order as CONFIRMED with the
partner recorded, and assigning a second partner to the same order
afterwards fails with the already-assigned error. -/
theorem assignDeliveryPartner_guards
    (db : OrderDb) (users : UserDb) (orderId deliveryPartnerId : String) :
    (dbFind db orderId = none →
        assignDeliveryPartner db users orderId deliveryPartnerId
          = (.error .orderNotFound, db))
    ∧ (∀ order, dbFind db orderId = some order →
        (order.deliveryPartnerId.isSome →
            assignDeliveryPartner db users orderId deliveryPartnerId
              = (.error .alreadyAssigned, db))
        ∧ (order.deliveryPartnerId = none → order.status ≠ OrderStatus.pending →
            assignDeliveryPartner db users orderId deliveryPartnerId
              = (.error .cannotAssignInCurrentStatus, db))
        ∧ (order.deliveryPartnerId = none → order.status = OrderStatus.pending →
            userFind users deliveryPartnerId = none →
            assignDeliveryPartner db users orderId deliveryPartnerId
              = (.error .partnerNotFound, db))
        ∧ (∀ partner, order.deliveryPartnerId = none →
            order.status = OrderStatus.pending →
            userFind users deliveryPartnerId = some partner →
            partner.isActive = false →
            assignDeliveryPartner db users orderId deliveryPartnerId
              = (.error .partnerIneligible, db))
        ∧ (∀ partner, order.deliveryPartnerId = none →
            order.status = OrderStatus.pending →
            userFind users deliveryPartnerId = some partner →
            partner.isActive = true →
            assignDeliveryPartner db users orderId deliveryPartnerId
              = (.ok { order with deliveryPartnerId := some deliveryPartnerId,
                                  status := OrderStatus.confirmed },
                 dbSet db orderId
                   { order with deliveryPartnerId := some deliveryPartnerId,
                                status := OrderStatus.confirmed })
            ∧ ∀ secondPartnerId,
                assignDeliveryPartner
                    (dbSet db orderId
                      { order with deliveryPartnerId := some deliveryPartnerId,
                                   status := OrderStatus.confirmed })
                    users orderId secondPartnerId
                  = (.error .alreadyAssigned,
                     dbSet db orderId
                       { order with deliveryPartnerId := some deliveryPartnerId,
                                    status := OrderStatus.confirmed }))) := by
  constructor
  · intro hnone
    simp [assignDeliveryPartner, hnone]
  · intro order h
    refine ⟨?_, ?_, ?_, ?_, ?_⟩
    · intro hassigned
      simp [assignDeliveryPartner, h, hassigned]
    · intro hun hst
      simp [assignDeliveryPartner, h, hun, hst]
    · intro hun hst hp
      simp [assignDeliveryPartner, h, hun, hst, hp]
    · intro partner hun hst hp hact
      simp [assignDeliveryPartner, h, hun, hst, hp, hact]
    · intro partner hun hst hp hact
      constructor
      · simp [assignDeliveryPartner, h, hun, hst, hp, hact,
              OrderRepository.assignDeliveryPartner]
      · intro secondPartnerId
        have hfound := dbFind_dbSet_self db orderId
          { order with deliveryPartnerId := some deliveryPartnerId,
                       status := OrderStatus.confirmed } order h
        simp [assignDeliveryPartner, hfound]

/-- Witness for C7: end-to-end scenario B — assigning an active partner to a
PENDING order persists CONFIRMED with the partner recorded, and a second
assignment fails with the already-assigned error. -/
theorem assignDeliveryPartner_guards_witness :
    assignDeliveryPartner
        [("A", { userId := "u7", status := OrderStatus.pending,
                 paymentStatus := PaymentStatus.pending })]
        [("p1", { isActive := true }), ("p2", { isActive := true })] "A" "p1"
      = (.ok { userId := "u7", deliveryPartnerId := some "p1",
               status := OrderStatus.confirmed,
               paymentStatus := PaymentStatus.pending },
         [("A", { userId := "u7", deliveryPartnerId := some "p1",
                  status := OrderStatus.confirmed,
                  paymentStatus := PaymentStatus.pending })])
    ∧ assignDeliveryPartner
        [("A", { userId := "u7", deliveryPartnerId := some "p1",
                 status := OrderStatus.confirmed,
                 paymentStatus := PaymentStatus.pending })]
        [("p1", { isActive := true }), ("p2", { isActive := true })] "A" "p2"
      = (.error .alreadyAssigned,
         [("A", { userId := "u7", deliveryPartnerId := some "p1",
                  status := OrderStatus.confirmed,
                  paymentStatus := PaymentStatus.pending })]) := by
  have h := (((assignDeliveryPartner_guards
      [("A", { userId := "u7", status := OrderStatus.pending,
               paymentStatus := PaymentStatus.pending })]
      [("p1", { isActive := true }), ("p2", { isActive := true })] "A" "p1").2
      { userId := "u7", status := OrderStatus.pending,
        paymentStatus := PaymentStatus.pending } (by decide)).2.2.2.2
      { isActive := true } (by decide) (by decide) (by decide) (by decide))
  exact ⟨by simpa using h.1, by simpa using h.2 "p2"⟩

/-! ## C8 : the pricing formula -/

/-- C8.  For every item list, coordinate pair and tier, the pricing
breakdown is base 50, distance charge `distance × 10`, weight charge
`totalWeight × 5`, the claimed tier surcharge, tax 18% of the subtotal and
total `subtotal × 1.18` exactly; and the computation is a pure function —
two calls on identical inputs agree. -/
theorem calculatePricing_formula (dist : Coordinates → Coordinates → ℚ)
    (items : List OrderItem) (pickupCoordinates deliveryCoordinates : Coordinates)
    (deliveryType : DeliveryType) :
    (calculatePricing dist items pickupCoordinates deliveryCoordinates deliveryType).basePrice
        = 50
    ∧ (calculatePricing dist items pickupCoordinates deliveryCoordinates deliveryType).distanceCharge
        = dist pickupCoordinates deliveryCoordinates * 10
    ∧ (calculatePricing dist items pickupCoordinates deliveryCoordinates deliveryType).weightCharge
        = (items.foldl (fun sum item => sum + item.weight.getD 0) 0) * 5
    ∧ (calculatePricing dist items pickupCoordinates deliveryCoordinates deliveryType).deliveryCharge
        = (match deliveryType with
           | .standard => 25 | .express => 100 | .sameDay => 200 | .scheduled => 50)
    ∧ (calculatePricing dist items pickupCoordinates deliveryCoordinates deliveryType).taxAmount
        = (18 / 100)
          * ((calculatePricing dist items pickupCoordinates deliveryCoordinates deliveryType).basePrice
             + (calculatePricing dist items pickupCoordinates deliveryCoordinates deliveryType).distanceCharge
             + (calculatePricing dist items pickupCoordinates deliveryCoordinates deliveryType).weightCharge
             + (calculatePricing dist items pickupCoordinates deliveryCoordinates deliveryType).deliveryCharge)
    ∧ (calculatePricing dist items pickupCoordinates deliveryCoordinates deliveryType).totalAmount
        = ((calculatePricing dist items pickupCoordinates deliveryCoordinates deliveryType).basePrice
           + (calculatePricing dist items pickupCoordinates deliveryCoordinates deliveryType).distanceCharge
           + (calculatePricing dist items pickupCoordinates deliveryCoordinates deliveryType).weightCharge
           + (calculatePricing dist items pickupCoordinates deliveryCoordinates deliveryType).deliveryCharge)
          + (calculatePricing dist items pickupCoordinates deliveryCoordinates deliveryType).taxAmount
    ∧ (calculatePricing dist items pickupCoordinates deliveryCoordinates deliveryType).totalAmount
        = ((calculatePricing dist items pickupCoordinates deliveryCoordinates deliveryType).basePrice
           + (calculatePricing dist items pickupCoordinates deliveryCoordinates deliveryType).distanceCharge
           + (calculatePricing dist items pickupCoordinates deliveryCoordinates deliveryType).weightCharge
           + (calculatePricing dist items pickupCoordinates deliveryCoordinates deliveryType).deliveryCharge)
          * (118 / 100)
    ∧ calculatePricing dist items pickupCoordinates deliveryCoordinates deliveryType
        = calculatePricing dist items pickupCoordinates deliveryCoordinates deliveryType := by
  cases deliveryType <;>
    refine ⟨rfl, rfl, rfl, rfl, by simp [calculatePricing]; ring, rfl, ?_, rfl⟩ <;>
    · simp only [calculatePricing]
      ring

/-! ## C9 : the retention floor of the location cleanup -/

/-- C9.  `cleanupOldLocations` rejects every `daysOld < 7` with an error —
deleting nothing — and for every `daysOld ≥ 7` deletes exactly the records
older than `daysOld` and returns their number. -/
theorem cleanupOldLocations_retention_floor (ages : List ℚ) (daysOld : ℚ) :
    (daysOld < 7 →
        cleanupOldLocations ages daysOld
          = (.error "Cannot delete locations newer than 7 days", ages))
    ∧ (7 ≤ daysOld →
        cleanupOldLocations ages daysOld
          = (.ok (ages.filter (fun age => daysOld < age)).length,
             ages.filter (fun age => ¬daysOld < age))) := by
  constructor
  · intro hlt
    simp [cleanupOldLocations, hlt]
  · intro hge
    simp [cleanupOldLocations, LocationRepository.cleanupOldLocations,
          not_lt_of_ge hge]

/-- Witness for C9: `daysOld = 6` is rejected with nothing deleted, and
`daysOld = 10` deletes exactly the two records older than 10 days. -/
theorem cleanupOldLocations_retention_floor_witness :
    cleanupOldLocations [1, 8, 30, 100] 6
        = (.error "Cannot delete locations newer than 7 days", [1, 8, 30, 100])
    ∧ cleanupOldLocations [1, 8, 30, 100] 10 = (.ok 2, [1, 8]) := by
  constructor
  · exact (cleanupOldLocations_retention_floor [1, 8, 30, 100] 6).1 (by norm_num)
  · have h := (cleanupOldLocations_retention_floor [1, 8, 30, 100] 10).2 (by norm_num)
    rw [h]
    norm_num

/-! ## C5 : physical plausibility of location updates -/

/-- C5.  With no prior accepted sample the validator accepts
unconditionally; with a prior sample and elapsed time `Δt` (milliseconds) it
rejects as too frequent whenever `Δt < 5s`; past that gate it rejects as
implausible speed exactly when the distance between the two coordinate pairs
exceeds `(120 × Δt)/3600` kilometres (`Δt` in seconds), and accepts
otherwise.  In particular a 500 km jump one second after the last sample is
rejected, and a 1 km jump sixty seconds after it is accepted.  The distance
function is abstract, so the equivalence holds in particular for the
haversine the source uses. -/
theorem validateLocationUpdate_physics (dist : Coordinates → Coordinates → ℚ)
    (lastLoc : LocationSample) (now : ℚ) (coordinates : Coordinates) :
    validateLocationUpdateCore dist none now coordinates = { isValid := true }
    ∧ (now - lastLoc.createdAt < 5000 →
        validateLocationUpdateCore dist (some lastLoc) now coordinates
          = { isValid := false, reason := some "Location updates too frequent" })
    ∧ (5000 ≤ now - lastLoc.createdAt →
        (validateLocationUpdateCore dist (some lastLoc) now coordinates
            = { isValid := false,
                reason := some "Location change exceeds maximum possible speed" }
          ↔ 120 * ((now - lastLoc.createdAt) / 1000) / 3600
              < dist lastLoc.coordinates coordinates))
    ∧ (5000 ≤ now - lastLoc.createdAt →
        ¬120 * ((now - lastLoc.createdAt) / 1000) / 3600
            < dist lastLoc.coordinates coordinates →
        validateLocationUpdateCore dist (some lastLoc) now coordinates
          = { isValid := true })
    ∧ (validateLocationUpdateCore (fun _ _ => 500)
          (some { coordinates := { latitude := 0, longitude := 0 }, createdAt := 0 })
          1000 coordinates).isValid = false
    ∧ validateLocationUpdateCore (fun _ _ => 1)
          (some { coordinates := { latitude := 0, longitude := 0 }, createdAt := 0 })
          60000 coordinates = { isValid := true } := by
  have hconv : 120 * (now - lastLoc.createdAt) / (1000 * 60 * 60)
      = 120 * ((now - lastLoc.createdAt) / 1000) / 3600 := by ring
  refine ⟨rfl, ?_, ?_, ?_, ?_, ?_⟩
  · intro hlt
    simp [validateLocationUpdateCore, hlt]
  · intro hge
    simp only [validateLocationUpdateCore]
    rw [if_neg (not_lt_of_ge hge), hconv]
    by_cases hlt : 120 * ((now - lastLoc.createdAt) / 1000) / 3600
        < dist lastLoc.coordinates coordinates
    · rw [if_pos hlt]
      simp [hlt]
    · rw [if_neg hlt]
      simp [hlt]
  · intro hge hnot
    simp only [validateLocationUpdateCore]
    rw [if_neg (not_lt_of_ge hge), hconv, if_neg hnot]
  · norm_num [validateLocationUpdateCore]
  · norm_num [validateLocationUpdateCore]

/-- Witness for C5: the too-frequent gate fires on a 1-second-later sample
(the 500 km jump of the claim is among them), and the 1 km / 60 s update is
accepted. -/
theorem validateLocationUpdate_physics_witness :
    validateLocationUpdateCore (fun _ _ => 500)
        (some { coordinates := { latitude := 0, longitude := 0 }, createdAt := 0 })
        1000 { latitude := 5, longitude := 5 }
      = { isValid := false, reason := some "Location updates too frequent" }
    ∧ validateLocationUpdateCore (fun _ _ => 1)
        (some { coordinates := { latitude := 0, longitude := 0 }, createdAt := 0 })
        60000 { latitude := 5, longitude := 5 }
      = { isValid := true } := by
  constructor
  · exact (validateLocationUpdate_physics (fun _ _ => 500)
      { coordinates := { latitude := 0, longitude := 0 }, createdAt := 0 }
      1000 { latitude := 5, longitude := 5 }).2.1 (by norm_num)
  · exact (validateLocationUpdate_physics (fun _ _ => 1)
      { coordinates := { latitude := 0, longitude := 0 }, createdAt := 0 }
      60000 { latitude := 5, longitude := 5 }).2.2.2.2.2

/-! ## C10 : totality and read-only behaviour of the validator -/

/-- C10.  The public validator always returns a verdict object — embedded by
its total return type — and turns a failing read of the last stored sample
into the verdict `{ isValid: false, reason: "Validation error" }`; it never
writes: the controller persists the candidate sample exactly when the
verdict is valid, and leaves the store untouched on every invalid
verdict. -/
theorem validateLocationUpdate_total_readonly
    (dist : Coordinates → Coordinates → ℚ) (store : LocationStore)
    (readLast : Except String (Option LocationSample)) (now : ℚ)
    (coordinates : Coordinates) :
    (∀ e, readLast = .error e →
        validateLocationUpdate dist readLast now coordinates
          = { isValid := false, reason := some "Validation error" })
    ∧ ((validateLocationUpdate dist readLast now coordinates).isValid = false →
        controllerUpdateLocation dist store readLast now coordinates
          = (validateLocationUpdate dist readLast now coordinates, store))
    ∧ ((validateLocationUpdate dist readLast now coordinates).isValid = true →
        controllerUpdateLocation dist store readLast now coordinates
          = (validateLocationUpdate dist readLast now coordinates,
             store ++ [{ coordinates := coordinates, createdAt := now }])) := by
  refine ⟨?_, ?_, ?_⟩
  · intro e he
    rw [he]
    rfl
  · intro hinvalid
    simp [controllerUpdateLocation, hinvalid]
  · intro hvalid
    simp [controllerUpdateLocation, hvalid]

/-- Witness for C10: a failed read yields the internal-error verdict and the
store is unchanged. -/
theorem validateLocationUpdate_total_readonly_witness :
    validateLocationUpdate (fun _ _ => 0) (.error "db down") 777
        { latitude := 1, longitude := 2 }
      = { isValid := false, reason := some "Validation error" }
    ∧ controllerUpdateLocation (fun _ _ => 0)
        [{ coordinates := { latitude := 0, longitude := 0 }, createdAt := 0 }]
        (.error "db down") 777 { latitude := 1, longitude := 2 }
      = ({ isValid := false, reason := some "Validation error" },
         [{ coordinates := { latitude := 0, longitude := 0 }, createdAt := 0 }]) := by
  have h := validateLocationUpdate_total_readonly (fun _ _ => 0)
      [{ coordinates := { latitude := 0, longitude := 0 }, createdAt := 0 }]
      (.error "db down") 777 { latitude := 1, longitude := 2 }
  have h1 := h.1 "db down" rfl
  refine ⟨h1, ?_⟩
  rw [h.2.1 (by rw [h1])]
  rw [h1]

/-! ## C2 : OTP-verified custody transfer -/

/-- Order A of the C2 counterexample: CONFIRMED, assigned to partner p1. -/
def orderC2A : Order :=
  { userId := "u1", deliveryPartnerId := some "p1",
    status := OrderStatus.confirmed, paymentStatus := PaymentStatus.pending }

/-- Order B of the C2 counterexample: a second order of the same customer. -/
def orderC2B : Order :=
  { userId := "u1", status := OrderStatus.pending,
    paymentStatus := PaymentStatus.pending }

/-- Ledger with one active pickup code per order of customer u1: "111111"
was issued for order A, "222222" for order B. -/
def otpsC2 : List OTPRecord :=
  [ { userId := "u1", otpType := OTPType.pickup, code := "111111",
      orderId := some "A", expiresAt := 100000 },
    { userId := "u1", otpType := OTPType.pickup, code := "222222",
      orderId := some "B", expiresAt := 100000 } ]

/-- Counterexample to C2 as stated: the submitted code is NOT checked
against the ledger record scoped to the specific order.  The only ledger
record carrying code "222222" was issued for order B, yet submitting it for
order A succeeds and advances order A to PICKED_UP — the call site passes no
order reference to the ledger. -/
theorem verifyPickupOTP_not_order_scoped :
    (∀ r ∈ otpsC2, r.code = "222222" → r.orderId = some "B")
    ∧ (verifyPickupOTP [("A", orderC2A), ("B", orderC2B)] otpsC2
          "A" "222222" "p1" 50).1
        = .ok { userId := "u1", deliveryPartnerId := some "p1",
                status := OrderStatus.pickedUp,
                paymentStatus := PaymentStatus.pending,
                notes := some "Package picked up with OTP verification" } := by
  decide

/-- C2 as amended: the order-scoping conjunct is dropped (the ledger lookup
key is subject and purpose only).  For every stored order: a caller other
than the assigned partner is rejected as unauthorized; a wrong pre-state
(CONFIRMED for pickup, OUT_FOR_DELIVERY for delivery) is rejected; otherwise
the code is delegated to the ledger for subject = customer id and purpose =
PICKUP (resp. DELIVERY), on ledger failure the ledger's specific reason is
surfaced with the order store unchanged, and on ledger success the order
advances exactly one step, to PICKED_UP (resp. DELIVERED). -/
theorem verifyOTP_custody_flow (db : OrderDb) (otps : List OTPRecord)
    (orderId otpCode deliveryPartnerId : String) (now : ℚ) (order : Order)
    (h : dbFind db orderId = some order) :
    (order.deliveryPartnerId ≠ some deliveryPartnerId →
        verifyPickupOTP db otps orderId otpCode deliveryPartnerId now
            = (.error .unauthorizedPickup, db, otps)
        ∧ verifyDeliveryOTP db otps orderId otpCode deliveryPartnerId now
            = (.error .unauthorizedDelivery, db, otps))
    ∧ (order.deliveryPartnerId = some deliveryPartnerId →
        order.status ≠ OrderStatus.confirmed →
        verifyPickupOTP db otps orderId otpCode deliveryPartnerId now
          = (.error .notReadyForPickup, db, otps))
    ∧ (order.deliveryPartnerId = some deliveryPartnerId →
        order.status ≠ OrderStatus.outForDelivery →
        verifyDeliveryOTP db otps orderId otpCode deliveryPartnerId now
          = (.error .notOutForDelivery, db, otps))
    ∧ (∀ reason otps', order.deliveryPartnerId = some deliveryPartnerId →
        order.status = OrderStatus.confirmed →
        OTPRepository.verifyOTP otps order.userId OTPType.pickup otpCode now
          = (.error reason, otps') →
        verifyPickupOTP db otps orderId otpCode deliveryPartnerId now
          = (.error (.otpFailed reason), db, otps'))
    ∧ (∀ otps', order.deliveryPartnerId = some deliveryPartnerId →
        order.status = OrderStatus.confirmed →
        OTPRepository.verifyOTP otps order.userId OTPType.pickup otpCode now
          = (.ok (), otps') →
        verifyPickupOTP db otps orderId otpCode deliveryPartnerId now
          = (.ok { order with
                   status := OrderStatus.pickedUp,
                   notes := some "Package picked up with OTP verification" },
             dbSet db orderId
               { order with
                 status := OrderStatus.pickedUp,
                 notes := some "Package picked up with OTP verification" },
             otps'))
    ∧ (∀ reason otps', order.deliveryPartnerId = some deliveryPartnerId →
        order.status = OrderStatus.outForDelivery →
        OTPRepository.verifyOTP otps order.userId OTPType.delivery otpCode now
          = (.error reason, otps') →
        verifyDeliveryOTP db otps orderId otpCode deliveryPartnerId now
          = (.error (.otpFailed reason), db, otps'))
    ∧ (∀ otps', order.deliveryPartnerId = some deliveryPartnerId →
        order.status = OrderStatus.outForDelivery →
        OTPRepository.verifyOTP otps order.userId OTPType.delivery otpCode now
          = (.ok (), otps') →
        verifyDeliveryOTP db otps orderId otpCode deliveryPartnerId now
          = (.ok { order with
                   status := OrderStatus.delivered,
                   notes := some "Package delivered with OTP verification" },
             dbSet db orderId
               { order with
                 status := OrderStatus.delivered,
                 notes := some "Package delivered with OTP verification" },
             otps')) := by
  refine ⟨?_, ?_, ?_, ?_, ?_, ?_, ?_⟩
  · intro hpartner
    constructor
    · simp [verifyPickupOTP, h, hpartner]
    · simp [verifyDeliveryOTP, h, hpartner]
  · intro hpartner hstatus
    simp [verifyPickupOTP, h, hpartner, hstatus]
  · intro hpartner hstatus
    simp [verifyDeliveryOTP, h, hpartner, hstatus]
  · intro reason otps' hpartner hstatus hotp
    simp [verifyPickupOTP, h, hpartner, hstatus, hotp]
  · intro otps' hpartner hstatus hotp
    have hvalid : isValidStatusTransition OrderStatus.confirmed OrderStatus.pickedUp
        = true := by decide
    simp [verifyPickupOTP, h, hpartner, hstatus, hotp, updateOrderStatus, hvalid,
          OrderRepository.updateStatus_of_found db orderId order OrderStatus.pickedUp
            (some "Package picked up with OTP verification") h]
  · intro reason otps' hpartner hstatus hotp
    simp [verifyDeliveryOTP, h, hpartner, hstatus, hotp]
  · intro otps' hpartner hstatus hotp
    have hvalid : isValidStatusTransition OrderStatus.outForDelivery OrderStatus.delivered
        = true := by decide
    simp [verifyDeliveryOTP, h, hpartner, hstatus, hotp, updateOrderStatus, hvalid,
          OrderRepository.updateStatus_of_found db orderId order OrderStatus.delivered
            (some "Package delivered with OTP verification") h]

/-- Witness for the amended C2: with the correct pickup code for the
assigned partner on a CONFIRMED order, the order advances to PICKED_UP;
afterwards the record is consumed, and the ledger rejects a replay as
mismatched (no active record with that code remains). -/
theorem verifyOTP_custody_flow_witness :
    verifyPickupOTP [("A", orderC2A)]
        [{ userId := "u1", otpType := OTPType.pickup, code := "111111",
           orderId := some "A", expiresAt := 100000 }] "A" "111111" "p1" 50
      = (.ok { userId := "u1", deliveryPartnerId := some "p1",
               status := OrderStatus.pickedUp,
               paymentStatus := PaymentStatus.pending,
               notes := some "Package picked up with OTP verification" },
         [("A", { userId := "u1", deliveryPartnerId := some "p1",
                  status := OrderStatus.pickedUp,
                  paymentStatus := PaymentStatus.pending,
                  notes := some "Package picked up with OTP verification" })],
         [{ userId := "u1", otpType := OTPType.pickup, code := "111111",
            orderId := some "A", expiresAt := 100000, consumed := true }]) := by
  have h := ((verifyOTP_custody_flow [("A", orderC2A)]
      [{ userId := "u1", otpType := OTPType.pickup, code := "111111",
         orderId := some "A", expiresAt := 100000 }] "A" "111111" "p1" 50
      orderC2A (by decide)).2.2.2.2.1
      [{ userId := "u1", otpType := OTPType.pickup, code := "111111",
         orderId := some "A", expiresAt := 100000, consumed := true }]
      (by decide) (by decide) (by decide))
  simpa [orderC2A] using h

/-! ## C4 : partner matching -/

/-- First-listed candidate of the C4 failing input: rating 1, few
deliveries, at the same spot as the other candidate. -/
def candC4low : PartnerCandidate :=
  { userId := "p1", coordinates := { latitude := 10, longitude := 20 },
    rating := 1, completedDeliveries := 5 }

/-- Second-listed candidate: rating 5, 200 completed deliveries, identical
coordinates — under the claimed formula it must win. -/
def candC4high : PartnerCandidate :=
  { userId := "p2", coordinates := { latitude := 10, longitude := 20 },
    rating := 5, completedDeliveries := 200 }

/-- The constant distance function of the C4 failing input (both candidates
sit at the same coordinates, so any distance function gives them identical
pickup and dropoff distances; this one makes them 3 km). -/
def distC4 : Coordinates → Coordinates → ℚ := fun _ _ => 3

/-- C4, evaluated at the failing input.  The scoring step hardcodes rating 0
and 0 completed deliveries for every candidate instead of using the
candidate's own data (conjuncts 1-2), so the two equal-distance candidates
tie (conjunct 3) and the stable sort returns the first-listed, lower-rated
candidate p1 (conjunct 4) — while under the formula the claim states, with
each candidate's own rating, the higher-rated p2 scores strictly lower
(conjunct 5).  An empty radius result returns no candidate (conjunct 6). -/
theorem findOptimalDeliveryPartner_ignores_rating :
    (scorePartner distC4 { latitude := 0, longitude := 0 }
        { latitude := 1, longitude := 1 } candC4high).rating = 0
    ∧ (scorePartner distC4 { latitude := 0, longitude := 0 }
        { latitude := 1, longitude := 1 } candC4high).totalDeliveries = 0
    ∧ (scorePartner distC4 { latitude := 0, longitude := 0 }
          { latitude := 1, longitude := 1 } candC4low).score
        = (scorePartner distC4 { latitude := 0, longitude := 0 }
            { latitude := 1, longitude := 1 } candC4high).score
    ∧ (findOptimalDeliveryPartner distC4 [candC4low, candC4high]
          { latitude := 0, longitude := 0 } { latitude := 1, longitude := 1 }).map
        ScoredPartner.userId = some "p1"
    ∧ claimedScore 3 3 candC4high.rating candC4high.completedDeliveries
        < claimedScore 3 3 candC4low.rating candC4low.completedDeliveries
    ∧ findOptimalDeliveryPartner distC4 []
        { latitude := 0, longitude := 0 } { latitude := 1, longitude := 1 } = none := by
  refine ⟨rfl, rfl, ?_, ?_, ?_, rfl⟩
  · norm_num [scorePartner, distC4]
  · norm_num [findOptimalDeliveryPartner, scorePartner, sortByScore, insertByScore,
              distC4, candC4low, candC4high]
  · norm_num [claimedScore, candC4high, candC4low]
